import Mathlib

/-!
Shallow embedding of the vessel-enrichment service
(app/services/queue.py, app/services/enrichment.py,
app/data_sources/base.py, app/data_sources/vesselfinder.py).

The queue lives in a relational table `vessel_enrichment_queue`
(app/models/vessel.py); we model it as a list of rows.  Database
sessions are modelled by explicit state passing; each SQL statement in
the source is immediately followed by a commit, so an UPDATE/INSERT is
applied directly to the list.  Wall-clock reads (`time.time()`) and the
outcome of the external enrichment call are passed in as oracle
arguments.  Fallible paths return `Except`.
-/

/-- Queue item status column (app/models/vessel.py line 64:
pending, processing, completed, failed). -/
inductive Status
| pending
| processing
| completed
| failed
deriving DecidableEq

/-- One row of `vessel_enrichment_queue` (app/models/vessel.py lines 56-73).
`created_at` / `updated_at` come from `TimestampMixin` (models/base.py, not
present under src/); they are modelled as plain data here. -/
structure QueueItem where
  id : Nat
  mmsi : String
  priority : Int
  status : Status
  attempts : Nat
  last_attempt_at : Option Nat
  error : Option String
  created_at : Nat
  updated_at : Nat
deriving DecidableEq

/-- The queue-service state: the `is_processing` single-flight flag
(queue.py line 29) together with the queue table. -/
structure ServiceState where
  is_processing : Bool
  queue : List QueueItem
deriving DecidableEq

/-- The WHERE predicate of the duplicate check in `add_to_queue`
(queue.py lines 55-62): same mmsi and status in (pending, processing). -/
def is_active_for (k : String) (x : QueueItem) : Bool :=
  decide (x.mmsi = k ∧ (x.status = Status.pending ∨ x.status = Status.processing))

/-- Number of rows for key `k` whose status is pending or processing. -/
def activeCount (k : String) (q : List QueueItem) : Nat :=
  (q.filter (is_active_for k)).length

/-- `VesselEnrichmentQueueService.add_to_queue` (queue.py lines 41-90):
if a row with the same mmsi is pending or processing, insert nothing and
return False; otherwise insert a new pending row (attempts defaults to 0,
error to NULL, model/vessel.py lines 63-67) and return True.  `newId` and
`now` stand for the fresh primary key and the timestamps assigned by the
database. -/
def add_to_queue (mmsi : String) (priority : Int) (newId now : Nat)
    (q : List QueueItem) : Bool × List QueueItem :=
  if q.any (is_active_for mmsi) then (false, q)
  else
    (true, q ++ [{ id := newId, mmsi := mmsi, priority := priority,
                   status := Status.pending, attempts := 0,
                   last_attempt_at := none, error := none,
                   created_at := now, updated_at := now }])

/-- A sequence of `add_to_queue` calls, each with its key, priority, fresh
id and timestamp, applied in order. -/
def apply_enqueues (ops : List (String × Int × Nat × Nat))
    (q : List QueueItem) : List QueueItem :=
  ops.foldl (fun acc op => (add_to_queue op.1 op.2.1 op.2.2.1 op.2.2.2 acc).2) q

/-- The WHERE predicate of the dequeue SELECT (queue.py lines 213-217):
status pending and attempts below the configured maximum. -/
def eligible (m : Nat) (x : QueueItem) : Bool :=
  decide (x.status = Status.pending ∧ x.attempts < m)

/-- ORDER BY priority DESC, created_at ASC (queue.py lines 218-221):
`a` sorts strictly before `b`. -/
def ranks_before (a b : QueueItem) : Bool :=
  decide (a.priority > b.priority ∨ (a.priority = b.priority ∧ a.created_at < b.created_at))

/-- Fold picking the best-ranked candidate (first occurrence wins ties). -/
def pick_best (acc : Option QueueItem) (x : QueueItem) : Option QueueItem :=
  match acc with
  | none => some x
  | some b => if ranks_before x b then some x else some b

/-- The SELECT ... ORDER BY ... LIMIT 1 of `process_next`
(queue.py lines 210-225): the highest-priority, oldest eligible pending
row, if any. -/
def select_next (m : Nat) (q : List QueueItem) : Option QueueItem :=
  (q.filter (eligible m)).foldl pick_best none

/-- The UPDATE marking the selected row processing with
last_attempt_at = now (queue.py lines 230-238). -/
def mark_processing (itId : Nat) (now : Nat) (q : List QueueItem) : List QueueItem :=
  q.map (fun x =>
    if x.id = itId then { x with status := Status.processing, last_attempt_at := some now }
    else x)

/-- The per-row effect of the result-application UPDATEs of `process_next`
(queue.py lines 247-313): on success, status completed and error NULL
(attempts untouched); on failure, attempts becomes the selected row's
attempts + 1 and the row goes to failed (at the attempt limit) or back to
pending (below it), with the failure message stored in error. -/
def apply_result (m : Nat) (it : QueueItem) (success : Bool) (err : Option String)
    (x : QueueItem) : QueueItem :=
  if x.id = it.id then
    if success then { x with status := Status.completed, error := none }
    else if it.attempts + 1 ≥ m then
      { x with status := Status.failed, attempts := it.attempts + 1, error := err }
    else
      { x with status := Status.pending, attempts := it.attempts + 1, error := err }
  else x

/-- Oracle for one `process_next` cycle: the enrichment call returns a
result object with a success flag and error message, or some statement in
the try block raises (the raise is placed at the enrichment call; every
earlier statement was committed). -/
inductive EnrichOutcome
| result (success : Bool) (err : Option String)
| raised
deriving DecidableEq

/-- Body of the try block of `process_next` (queue.py lines 208-324),
reached when the single-flight guard was passed. An exception is caught,
the session rolled back to the last committed state and False returned
(lines 317-324). -/
def process_next_core (m : Nat) (outcome : EnrichOutcome) (now : Nat)
    (q : List QueueItem) : Bool × ServiceState :=
  match select_next m q with
  | none => (false, ⟨false, q⟩)
  | some it =>
    match outcome with
    | EnrichOutcome.raised => (false, ⟨false, mark_processing it.id now q⟩)
    | EnrichOutcome.result s e =>
      (true, ⟨false, (mark_processing it.id now q).map (apply_result m it s e)⟩)

/-- `VesselEnrichmentQueueService.process_next` (queue.py lines 193-327):
returns immediately when `is_processing` is already set (lines 203-204,
before the try, so the flag is left as found); otherwise runs the cycle,
and the finally block (lines 326-327) clears the flag on every path. -/
def process_next (m : Nat) (outcome : EnrichOutcome) (now : Nat)
    (st : ServiceState) : Bool × ServiceState :=
  if st.is_processing then (false, st)
  else process_next_core m outcome now st.queue

/-- The WHERE predicate of `retry_failed` (queue.py lines 470-475):
status failed and attempts below the maximum. -/
def retry_pred (m : Nat) (x : QueueItem) : Bool :=
  decide (x.status = Status.failed ∧ x.attempts < m)

/-- The VALUES of the `retry_failed` UPDATE (queue.py lines 476-479):
back to pending with error cleared. -/
def retry_reset (x : QueueItem) : QueueItem :=
  { x with status := Status.pending, error := none }

/-- `VesselEnrichmentQueueService.retry_failed` (queue.py lines 458-487):
one UPDATE over all matching rows; the returned count is the statement's
rowcount, i.e. the number of matched rows. -/
def retry_failed (m : Nat) (q : List QueueItem) : Nat × List QueueItem :=
  ((q.filter (retry_pred m)).length,
   q.map (fun x => if retry_pred m x then retry_reset x else x))

/-- The WHERE predicate of the `cleanup_queue` DELETE (queue.py lines
381-389): status completed or failed, and updated_at before the cutoff. -/
def cleanup_pred (cutoff : Nat) (x : QueueItem) : Bool :=
  decide ((x.status = Status.completed ∨ x.status = Status.failed) ∧ x.updated_at < cutoff)

/-- `VesselEnrichmentQueueService.cleanup_queue` (queue.py lines 367-398):
deletes the matching rows and returns the DELETE rowcount. -/
def cleanup_queue (cutoff : Nat) (q : List QueueItem) : Nat × List QueueItem :=
  ((q.filter (cleanup_pred cutoff)).length,
   q.filter (fun x => !cleanup_pred cutoff x))

/-- Per-source mutable state (data_sources/base.py lines 27-32):
last request timestamp in milliseconds and the consecutive-error
counter. -/
structure SourceState where
  last_request_time : Int
  consecutive_errors : Nat
deriving DecidableEq

/-- `VesselDataSource.respect_rate_limit` (base.py lines 70-83) with
min_delay = (60 * 1000) / rate_limit (base.py line 32).  base.py never
imports asyncio, so when the elapsed time is below min_delay the call to
asyncio.sleep at line 81 raises NameError instead of suspending; that
raise is modelled as an Except.error.  When no wait is needed the
function stamps last_request_time = now. -/
def respect_rate_limit (min_delay : Int) (now : Int) (st : SourceState) :
    Except String SourceState :=
  let time_since := now - st.last_request_time
  if time_since < min_delay then
    Except.error "NameError: name asyncio is not defined"
  else
    Except.ok { st with last_request_time := now }

/-- Oracle for one HTTP round of `fetch_by_mmsi`: either the GET raises a
transport exception, or it yields a status code together with what
`_parse_vessel_finder_html` would return on the body (that parser catches
its own exceptions and returns None on any parse failure,
vesselfinder.py lines 133-224; the parsed payload is abstracted to the
extracted vessel name). -/
inductive HttpWorld
| transportError
| response (code : Nat) (parsed : Option String)
deriving DecidableEq

/-- Model of the `response.ok` check (vesselfinder.py line 96):
status below 400 counts as ok. -/
def http_ok (code : Nat) : Bool := decide (code < 400)

/-- What one `fetch_by_mmsi` call produces: the Python return value (None
or data), the updated source state, and whether the HTTP request was
actually issued. -/
structure FetchOut where
  result : Option String
  st : SourceState
  requestMade : Bool
deriving DecidableEq

/-- `VesselFinderScraper.fetch_by_mmsi` (vesselfinder.py lines 51-112).
The whole body sits in a try whose handler calls handle_error (increment
consecutive_errors, base.py lines 107-124) and returns None, so the
function never raises.  404 returns None with the error counter reset;
406/429 and other non-ok codes return None with the counter bumped; a
parse failure returns None leaving the counter unchanged; success resets
the counter.  If `respect_rate_limit` raises (see above), the handler
catches it before any request is made. -/
def fetch_by_mmsi (min_delay : Int) (now : Int) (world : HttpWorld)
    (st : SourceState) : FetchOut :=
  match respect_rate_limit min_delay now st with
  | Except.error _ =>
    { result := none,
      st := { st with consecutive_errors := st.consecutive_errors + 1 },
      requestMade := false }
  | Except.ok st1 =>
    match world with
    | HttpWorld.transportError =>
      { result := none,
        st := { st1 with consecutive_errors := st1.consecutive_errors + 1 },
        requestMade := true }
    | HttpWorld.response code parsed =>
      if code = 404 then
        { result := none, st := { st1 with consecutive_errors := 0 }, requestMade := true }
      else if code = 406 ∨ code = 429 then
        { result := none,
          st := { st1 with consecutive_errors := st1.consecutive_errors + 1 },
          requestMade := true }
      else if !http_ok code then
        { result := none,
          st := { st1 with consecutive_errors := st1.consecutive_errors + 1 },
          requestMade := true }
      else
        match parsed with
        | some d => { result := some d, st := { st1 with consecutive_errors := 0 }, requestMade := true }
        | none => { result := none, st := st1, requestMade := true }

/-- Classifies the HTTP worlds the spec calls failures: transport
failures, unexpected status codes (anything non-ok other than the
confirmed not-found 404), and parse failures on an ok response. -/
def failure_world : HttpWorld → Bool
| HttpWorld.transportError => true
| HttpWorld.response code parsed =>
  decide (code ≠ 404) && (!http_ok code || parsed.isNone)

/-- What one configured data source does inside the coordinator loop
(enrichment.py lines 62-116): its availability probe fails, its fetch
returns usable data, its fetch returns None, or its fetch raises (caught
per-source, loop continues). -/
inductive SourceReply
| unavailable
| data
| absent
| raised
deriving DecidableEq

/-- The coordinator result (schemas VesselEnrichmentResponse as used in
enrichment.py): success flag, source tag and error message. -/
structure EnrichResponse where
  success : Bool
  mmsi : String
  source : String
  error : Option String
deriving DecidableEq

/-- A coordinator run: the response plus how often the external sources
were touched (availability probes and fetch calls). -/
structure EnrichTrace where
  resp : EnrichResponse
  fetch_calls : Nat
  avail_checks : Nat
deriving DecidableEq

/-- The source loop of `enrich_vessel` (enrichment.py lines 62-134): skip
unavailable sources, return success on the first usable fetch, continue
past None results and per-source exceptions, and fall through to a
failure tagged source none. -/
def enrich_loop (mmsi : String) (sources : List (String × SourceReply))
    (fetches avails : Nat) : EnrichTrace :=
  match sources with
  | [] =>
    { resp := { success := false, mmsi := mmsi, source := "none",
                error := some "No data found from any source" },
      fetch_calls := fetches, avail_checks := avails }
  | (name, reply) :: rest =>
    match reply with
    | SourceReply.unavailable => enrich_loop mmsi rest fetches (avails + 1)
    | SourceReply.absent => enrich_loop mmsi rest (fetches + 1) (avails + 1)
    | SourceReply.raised => enrich_loop mmsi rest (fetches + 1) (avails + 1)
    | SourceReply.data =>
      { resp := { success := true, mmsi := mmsi, source := name, error := none },
        fetch_calls := fetches + 1, avail_checks := avails + 1 }

/-- `VesselEnrichmentService.enrich_vessel` (enrichment.py lines 34-134):
when the vessel is absent from the database it returns a failure tagged
source database before the source loop, touching no source. -/
def enrich_vessel (mmsi : String) (vesselInDb : Bool)
    (sources : List (String × SourceReply)) : EnrichTrace :=
  if vesselInDb then enrich_loop mmsi sources 0 0
  else
    { resp := { success := false, mmsi := mmsi, source := "database",
                error := some "Vessel not found in database" },
      fetch_calls := 0, avail_checks := 0 }

/-- A Python argument as passed around the queue service: an actual
database session object, or an int.  Needed because queue.py line 119
passes `(mmsi, priority, db_session)` to a method whose parameters are
`(mmsi, db_session, priority)`. -/
inductive PyVal
| session
| intVal (n : Int)
deriving DecidableEq

/-- `add_to_queue` as dynamically invoked (queue.py lines 41-90), with the
Python-level argument values.  When `dbSession` is an int, the first
`db_session.execute` (line 55) raises AttributeError; the except handler
then evaluates `db_session.rollback()` (line 89), which raises
AttributeError again, uncaught, so the call propagates an exception.
When `dbSession` is a real session but `priority` is not an int, the
INSERT fails at commit, the handler rolls back and returns False. -/
def add_to_queue_py (mmsi : String) (dbSession : PyVal) (priority : PyVal)
    (newId now : Nat) (q : List QueueItem) : Except String (Bool × List QueueItem) :=
  match dbSession with
  | PyVal.intVal _ => Except.error "AttributeError: int object has no attribute rollback"
  | PyVal.session =>
    match priority with
    | PyVal.intVal p => Except.ok (add_to_queue mmsi p newId now q)
    | PyVal.session => Except.ok (false, q)

/-- The per-key loop of `add_many_to_queue` (queue.py lines 115-124),
which calls `self.add_to_queue(mmsi, priority, db_session)` at line 119 —
note the swapped argument order against the signature at line 41.  The
loop body has no try, so an exception from a call aborts the whole
batch.  The batching into groups of 100 with a 0.1 s sleep in between
only affects timing, not the result, and is not modelled. -/
def add_many_loop (dbSession priority : PyVal) (l : List String)
    (nextId now acc : Nat) (q : List QueueItem) : Except String (Nat × List QueueItem) :=
  match l with
  | [] => Except.ok (acc, q)
  | mmsi :: rest =>
    match add_to_queue_py mmsi priority dbSession nextId now q with
    | Except.error e => Except.error e
    | Except.ok (inserted, q1) =>
      add_many_loop dbSession priority rest (nextId + 1) now
        (if inserted then acc + 1 else acc) q1

/-- `VesselEnrichmentQueueService.add_many_to_queue` (queue.py lines
93-130): runs the per-key loop over the list and returns the number of
keys added. -/
def add_many_to_queue (mmsiList : List String) (dbSession priority : PyVal)
    (nextId now : Nat) (q : List QueueItem) : Except String (Nat × List QueueItem) :=
  add_many_loop dbSession priority mmsiList nextId now 0 q

lemma list_map_eq_self_of_mem {α : Type} {l : List α} {f : α → α}
    (h : ∀ x ∈ l, f x = x) : l.map f = l := by
  induction l with
  | nil => rfl
  | cons a t ih =>
    simp only [List.map_cons]
    rw [h a (List.mem_cons_self a t), ih (fun x hx => h x (List.mem_cons_of_mem a hx))]

lemma list_filter_eq_nil_of_mem {α : Type} {l : List α} {p : α → Bool}
    (h : ∀ x ∈ l, p x = false) : l.filter p = [] := by
  induction l with
  | nil => rfl
  | cons a t ih =>
    rw [List.filter_cons, h a (List.mem_cons_self a t)]
    exact ih (fun x hx => h x (List.mem_cons_of_mem a hx))

lemma list_any_false_mem {α : Type} {l : List α} {p : α → Bool}
    (h : l.any p = false) : ∀ x ∈ l, p x = false := by
  intro x hx
  by_contra hpx
  have : l.any p = true := List.any_eq_true.2 ⟨x, hx, by revert hpx; cases p x <;> simp⟩
  rw [h] at this
  exact Bool.false_ne_true this

lemma list_forall2_map_self {α : Type} {R : α → α → Prop} {f : α → α} {l : List α}
    (h : ∀ x ∈ l, R x (f x)) : List.Forall₂ R l (l.map f) := by
  induction l with
  | nil => exact List.Forall₂.nil
  | cons a t ih =>
    exact List.Forall₂.cons (h a (List.mem_cons_self a t))
      (ih (fun x hx => h x (List.mem_cons_of_mem a hx)))

lemma list_length_filter_add {α : Type} (l : List α) (p : α → Bool) :
    (l.filter p).length + (l.filter (fun x => !p x)).length = l.length := by
  induction l with
  | nil => rfl
  | cons a t ih =>
    rw [List.filter_cons, List.filter_cons]
    cases hp : p a <;> simp [hp, ← ih] <;> omega

/-- C7: retry_failed resets exactly the failed items with attempts below
the maximum back to pending with error cleared, returns the number of
matched items, and is idempotent: run again on its own output with no new
failures in between, it returns 0 and changes nothing. -/
theorem retry_failed_resets_and_idempotent (m : Nat) (q : List QueueItem) :
    (retry_failed m q).1 = (q.filter (retry_pred m)).length ∧
    (∀ x ∈ q, retry_pred m x = true → retry_reset x ∈ (retry_failed m q).2) ∧
    (∀ x ∈ q, retry_pred m x = false → x ∈ (retry_failed m q).2) ∧
    (∀ x ∈ (retry_failed m q).2, retry_pred m x = false) ∧
    retry_failed m (retry_failed m q).2 = (0, (retry_failed m q).2) := by
  have hafter : ∀ x ∈ (retry_failed m q).2, retry_pred m x = false := by
    intro x hx
    obtain ⟨z, hz, rfl⟩ := List.mem_map.1 hx
    by_cases hp : retry_pred m z = true
    · simp only [hp, if_true]
      simp [retry_pred, retry_reset]
    · simp only [Bool.not_eq_true] at hp
      simp [hp]
  refine ⟨rfl, ?_, ?_, hafter, ?_⟩
  · intro x hx hp
    exact List.mem_map.2 ⟨x, hx, by simp [hp]⟩
  · intro x hx hp
    exact List.mem_map.2 ⟨x, hx, by simp [hp]⟩
  · have h1 : ((retry_failed m q).2.filter (retry_pred m)) = [] :=
      list_filter_eq_nil_of_mem hafter
    have h2 : (retry_failed m q).2.map
        (fun x => if retry_pred m x then retry_reset x else x) = (retry_failed m q).2 :=
      list_map_eq_self_of_mem (by
        intro x hx
        simp [hafter x hx])
    show ((((retry_failed m q).2.filter (retry_pred m)).length : Nat), _) = _
    rw [h1, h2]
    rfl

/-- C7 witness: a single failed item with one attempt (limit 3) is reset
by the first call; the second call returns 0 and leaves the queue as the
first call left it. -/
theorem retry_failed_resets_and_idempotent_witness :
    retry_failed 3 (retry_failed 3 [⟨0, "123456789", 0, Status.failed, 1, none, some "boom", 0, 0⟩]).2 =
      (0, (retry_failed 3 [⟨0, "123456789", 0, Status.failed, 1, none, some "boom", 0, 0⟩]).2) :=
  (retry_failed_resets_and_idempotent 3
    [⟨0, "123456789", 0, Status.failed, 1, none, some "boom", 0, 0⟩]).2.2.2.2

/-- C8: cleanup_queue deletes exactly the completed/failed items whose
updated_at precedes the cutoff, returns the number deleted, and never
removes a pending or processing item, whatever its age. -/
theorem cleanup_queue_exact (cutoff : Nat) (q : List QueueItem) :
    (cleanup_queue cutoff q).1 + (cleanup_queue cutoff q).2.length = q.length ∧
    (∀ x ∈ q, (x ∈ (cleanup_queue cutoff q).2 ↔
      ¬ ((x.status = Status.completed ∨ x.status = Status.failed) ∧ x.updated_at < cutoff))) ∧
    (∀ x ∈ (cleanup_queue cutoff q).2, x ∈ q) ∧
    (∀ x ∈ q, (x.status = Status.pending ∨ x.status = Status.processing) →
      x ∈ (cleanup_queue cutoff q).2) := by
  refine ⟨list_length_filter_add q (cleanup_pred cutoff), ?_, ?_, ?_⟩
  · intro x hx
    constructor
    · intro hmem
      have := (List.mem_filter.1 hmem).2
      simp only [Bool.not_eq_true', cleanup_pred, decide_eq_false_iff_not] at this
      exact this
    · intro hnot
      refine List.mem_filter.2 ⟨hx, ?_⟩
      simp only [Bool.not_eq_true', cleanup_pred, decide_eq_false_iff_not]
      exact hnot
  · intro x hx
    exact (List.mem_filter.1 hx).1
  · intro x hx hst
    refine List.mem_filter.2 ⟨hx, ?_⟩
    simp only [Bool.not_eq_true', cleanup_pred, decide_eq_false_iff_not]
    rcases hst with h | h <;> rw [h] <;> rintro ⟨h1 | h1, _⟩ <;> exact Status.noConfusion h1

/-- C8 witness: an ancient pending item (updated_at 0, cutoff 1000)
survives cleanup. -/
theorem cleanup_queue_exact_witness :
    (⟨0, "123456789", 0, Status.pending, 0, none, none, 0, 0⟩ : QueueItem) ∈
      (cleanup_queue 1000 [⟨0, "123456789", 0, Status.pending, 0, none, none, 0, 0⟩]).2 :=
  (cleanup_queue_exact 1000 [⟨0, "123456789", 0, Status.pending, 0, none, none, 0, 0⟩]).2.2.2
    ⟨0, "123456789", 0, Status.pending, 0, none, none, 0, 0⟩ (by decide) (Or.inl rfl)

/-- C10: a process_next call that passes the single-flight guard leaves
is_processing false on return on every path — item processed, queue
empty, or internal exception — and in the exception path it returns
False instead of propagating (the model is total: nothing escapes the
except block). -/
theorem process_next_clears_flag (m : Nat) (outcome : EnrichOutcome) (now : Nat)
    (st : ServiceState) (h : st.is_processing = false) :
    (process_next m outcome now st).2.is_processing = false ∧
    (outcome = EnrichOutcome.raised → (process_next m outcome now st).1 = false) := by
  simp only [process_next, h, if_false, Bool.false_eq_true]
  cases hsel : select_next m st.queue with
  | none => simp [process_next_core, hsel]
  | some it =>
    cases outcome with
    | raised => simp [process_next_core, hsel]
    | result s e => simp [process_next_core, hsel]

/-- C10 witness: on the empty queue (and on the exception path) the call
returns with the flag cleared and result False. -/
theorem process_next_clears_flag_witness :
    (process_next 3 EnrichOutcome.raised 0 ⟨false, []⟩).2.is_processing = false ∧
    (process_next 3 EnrichOutcome.raised 0 ⟨false, []⟩).1 = false :=
  ⟨(process_next_clears_flag 3 EnrichOutcome.raised 0 ⟨false, []⟩ rfl).1,
   (process_next_clears_flag 3 EnrichOutcome.raised 0 ⟨false, []⟩ rfl).2 rfl⟩

/-- C1: in a process_next cycle that reaches a result for the selected
item, the row carrying that item's id ends as: success → completed with
error cleared; failure at the attempt limit → failed with attempts
incremented by 1 and the failure message stored; failure below the
limit → pending again with attempts incremented by 1 and the failure
message stored. -/
theorem process_next_result_transitions (m : Nat) (s : Bool) (e : Option String)
    (now : Nat) (st : ServiceState) (it x : QueueItem)
    (hguard : st.is_processing = false)
    (hsel : select_next m st.queue = some it)
    (hx : x ∈ (process_next m (EnrichOutcome.result s e) now st).2.queue)
    (hid : x.id = it.id) :
    (s = true → x.status = Status.completed ∧ x.error = none) ∧
    (s = false → x.attempts = it.attempts + 1 ∧ x.error = e ∧
      (m ≤ it.attempts + 1 → x.status = Status.failed) ∧
      (it.attempts + 1 < m → x.status = Status.pending)) := by
  simp only [process_next, hguard, if_false, Bool.false_eq_true,
    process_next_core, hsel] at hx
  obtain ⟨z, hz, rfl⟩ := List.mem_map.1 hx
  by_cases hzid : z.id = it.id
  · constructor
    · rintro rfl
      simp [apply_result, hzid]
    · rintro rfl
      by_cases hm : m ≤ it.attempts + 1
      · refine ⟨?_, ?_, fun _ => ?_, fun hlt => absurd hm (by omega)⟩ <;>
          simp [apply_result, hzid, hm]
      · refine ⟨?_, ?_, fun hge => absurd hge hm, fun _ => ?_⟩ <;>
          simp [apply_result, hzid, hm]
  · exfalso
    apply hzid
    rw [← hid]
    simp [apply_result, hzid]

/-- C1 witness: a pending item with attempts 0 whose enrichment succeeds
ends completed with error cleared. -/
theorem process_next_result_transitions_witness :
    (⟨0, "123456789", 0, Status.completed, 0, some 5, none, 0, 0⟩ : QueueItem).status =
      Status.completed ∧
    (⟨0, "123456789", 0, Status.completed, 0, some 5, none, 0, 0⟩ : QueueItem).error = none :=
  (process_next_result_transitions 3 true none 5
    ⟨false, [⟨0, "123456789", 0, Status.pending, 0, none, none, 0, 0⟩]⟩
    ⟨0, "123456789", 0, Status.pending, 0, none, none, 0, 0⟩
    ⟨0, "123456789", 0, Status.completed, 0, some 5, none, 0, 0⟩
    rfl (by decide) (by decide) rfl).1 rfl

lemma activeCount_append (k : String) (q r : List QueueItem) :
    activeCount k (q ++ r) = activeCount k q + activeCount k r := by
  simp [activeCount, List.filter_append]

lemma activeCount_add_to_queue_le (mmsi : String) (priority : Int) (newId now : Nat)
    (q : List QueueItem) (k : String) (h : activeCount k q ≤ 1) :
    activeCount k (add_to_queue mmsi priority newId now q).2 ≤ 1 := by
  unfold add_to_queue
  by_cases hany : q.any (is_active_for mmsi) = true
  · simpa [hany] using h
  · simp only [Bool.not_eq_true] at hany
    rw [hany]
    simp only [Bool.false_eq_true, if_false]
    rw [activeCount_append]
    by_cases hkm : mmsi = k
    · have hzero : activeCount k q = 0 := by
        have := list_any_false_mem hany
        subst hkm
        simp [activeCount, list_filter_eq_nil_of_mem this]
      rw [hzero]
      simp [activeCount, is_active_for, hkm]
    · have hnew : activeCount k
          [(⟨newId, mmsi, priority, Status.pending, 0, none, none, now, now⟩ : QueueItem)] = 0 := by
        simp [activeCount, is_active_for, hkm]
      rw [hnew]
      omega

lemma activeCount_apply_enqueues_le (ops : List (String × Int × Nat × Nat))
    (q : List QueueItem) (k : String) (h : activeCount k q ≤ 1) :
    activeCount k (apply_enqueues ops q) ≤ 1 := by
  induction ops generalizing q with
  | nil => simpa [apply_enqueues] using h
  | cons op rest ih =>
    show activeCount k (apply_enqueues rest (add_to_queue op.1 op.2.1 op.2.2.1 op.2.2.2 q).2) ≤ 1
    exact ih _ (activeCount_add_to_queue_le op.1 op.2.1 op.2.2.1 op.2.2.2 q k h)

/-- C2: add_to_queue is a dedup no-op when the key already has an item in
pending or processing (returns false, inserts nothing), inserts a single
fresh pending item with the given key and priority otherwise (returns
true), and any sequence of enqueues keeps at most one pending/processing
item per key. -/
theorem add_to_queue_dedup_invariant (mmsi : String) (priority : Int)
    (newId now : Nat) (q : List QueueItem) (k : String)
    (ops : List (String × Int × Nat × Nat)) (hk : activeCount k q ≤ 1) :
    (q.any (is_active_for mmsi) = true →
      add_to_queue mmsi priority newId now q = (false, q)) ∧
    (q.any (is_active_for mmsi) = false →
      (add_to_queue mmsi priority newId now q).1 = true ∧
      ∃ x, (add_to_queue mmsi priority newId now q).2 = q ++ [x] ∧
        x.mmsi = mmsi ∧ x.priority = priority ∧ x.status = Status.pending ∧
        x.attempts = 0 ∧ x.error = none) ∧
    activeCount k (apply_enqueues ops q) ≤ 1 := by
  refine ⟨?_, ?_, activeCount_apply_enqueues_le ops q k hk⟩
  · intro h
    simp [add_to_queue, h]
  · intro h
    refine ⟨by simp [add_to_queue, h], ?_⟩
    refine ⟨{ id := newId, mmsi := mmsi, priority := priority,
              status := Status.pending, attempts := 0, last_attempt_at := none,
              error := none, created_at := now, updated_at := now }, ?_, rfl, rfl, rfl, rfl, rfl⟩
    simp [add_to_queue, h]

/-- C2 witness: enqueueing a key already pending in the queue returns
false and leaves the queue unchanged. -/
theorem add_to_queue_dedup_invariant_witness :
    add_to_queue "123456789" 5 7 9
        [⟨0, "123456789", 0, Status.pending, 0, none, none, 0, 0⟩] =
      (false, [⟨0, "123456789", 0, Status.pending, 0, none, none, 0, 0⟩]) :=
  (add_to_queue_dedup_invariant "123456789" 5 7 9
    [⟨0, "123456789", 0, Status.pending, 0, none, none, 0, 0⟩] "123456789" []
    (by decide)).1 (by decide)

/-- C3 counterexample: a cycle that reaches the terminal decision
completed does NOT increment attempts. One pending item with attempts 0
is selected and enrichment succeeds; the claim demands its attempts
become 1, but the success UPDATE (queue.py lines 249-257) writes only
status and error, so attempts stays 0. -/
theorem process_next_success_attempts_cex :
    ¬ (∀ x ∈ (process_next 3 (EnrichOutcome.result true none) 5
          ⟨false, [⟨0, "123456789", 0, Status.pending, 0, none, none, 0, 0⟩]⟩).2.queue,
        x.attempts = 1) := by decide

/-- C3 amended: attempts is monotonically non-decreasing across the queue
operations, and a processing cycle that reaches a decision increments the
selected item's attempts by exactly 1 on a failure result and leaves it
unchanged on a success result; retry_failed, cleanup_queue and
add_to_queue never change the attempts of an existing item. -/
theorem process_next_attempts_monotone (m : Nat) (s : Bool) (e : Option String)
    (now : Nat) (st : ServiceState) (it : QueueItem)
    (hguard : st.is_processing = false)
    (hsel : select_next m st.queue = some it)
    (huniq : ∀ y ∈ st.queue, y.id = it.id → y = it) :
    List.Forall₂ (fun a b => a.id = b.id ∧ a.attempts ≤ b.attempts)
      st.queue (process_next m (EnrichOutcome.result s e) now st).2.queue ∧
    (∀ x ∈ (process_next m (EnrichOutcome.result s e) now st).2.queue,
      x.id = it.id → x.attempts = it.attempts + (if s then 0 else 1)) ∧
    (∀ q : List QueueItem,
      List.Forall₂ (fun a b => a.id = b.id ∧ a.attempts = b.attempts) q (retry_failed m q).2) ∧
    (∀ (c : Nat) (q : List QueueItem) (x : QueueItem), x ∈ (cleanup_queue c q).2 → x ∈ q) ∧
    (∀ (mm : String) (p : Int) (i n : Nat) (q : List QueueItem) (x : QueueItem),
      x ∈ q → x ∈ (add_to_queue mm p i n q).2) := by
  have hq : (process_next m (EnrichOutcome.result s e) now st).2.queue =
      (mark_processing it.id now st.queue).map (apply_result m it s e) := by
    simp [process_next, hguard, process_next_core, hsel]
  refine ⟨?_, ?_, ?_, ?_, ?_⟩
  · rw [hq, mark_processing, List.map_map]
    refine list_forall2_map_self ?_
    intro x hx
    by_cases hxid : x.id = it.id
    · have hx_it : x = it := huniq x hx hxid
      subst hx_it
      by_cases hs : s = true
      · subst hs
        simp [apply_result, hxid, Function.comp]
      · have hs' : s = false := by revert hs; cases s <;> simp
        subst hs'
        by_cases hm : m ≤ x.attempts + 1 <;>
          simp [apply_result, hxid, Function.comp, hm]
    · simp [apply_result, hxid, Function.comp]
  · intro x hxmem hxid
    rw [hq] at hxmem
    obtain ⟨z, hz, rfl⟩ := List.mem_map.1 hxmem
    obtain ⟨w, hw, rfl⟩ := List.mem_map.1 hz
    by_cases hwid : w.id = it.id
    · have hw_it : w = it := huniq w hw hwid
      subst hw_it
      by_cases hs : s = true
      · subst hs
        simp [apply_result, mark_processing, hwid]
      · have hs' : s = false := by revert hs; cases s <;> simp
        subst hs'
        by_cases hm : m ≤ w.attempts + 1 <;>
          simp [apply_result, hwid, hm]
    · exfalso
      apply hwid
      rw [← hxid]
      simp [apply_result, hwid]
  · intro q
    refine list_forall2_map_self ?_
    intro x hx
    by_cases hp : retry_pred m x = true <;> simp [hp, retry_reset]
  · intro c q x hx
    exact (List.mem_filter.1 hx).1
  · intro mm p i n q x hx
    by_cases hany : q.any (is_active_for mm) = true
    · simpa [add_to_queue, hany] using hx
    · simp only [Bool.not_eq_true] at hany
      simp [add_to_queue, hany, List.mem_append, hx]

/-- C3 amended witness: a failing cycle on a fresh item takes attempts
from 0 to 1. -/
theorem process_next_attempts_monotone_witness :
    (⟨0, "123456789", 0, Status.pending, 1, some 5, some "boom", 0, 0⟩ : QueueItem).attempts = 0 + 1 :=
  (process_next_attempts_monotone 3 false (some "boom") 5
    ⟨false, [⟨0, "123456789", 0, Status.pending, 0, none, none, 0, 0⟩]⟩
    ⟨0, "123456789", 0, Status.pending, 0, none, none, 0, 0⟩
    rfl (by decide) (by decide)).2.1
    ⟨0, "123456789", 0, Status.pending, 1, some 5, some "boom", 0, 0⟩
    (by decide) rfl

/-- C4 counterexample: the claim says a transport/status/parse failure is
distinguishable from a confirmed not-found.  With a fresh source state
(rate limiter passing), a 500 response returns exactly the same value as
a 404 response — None — and fetch_by_mmsi is total (its catch-all handler
at vesselfinder.py lines 110-112 means it never raises), so the caller
cannot tell the cases apart. -/
theorem fetch_by_mmsi_failure_indistinct_cex :
    ¬ ((fetch_by_mmsi 60000 100000 (HttpWorld.response 500 none) ⟨0, 0⟩).result ≠
       (fetch_by_mmsi 60000 100000 (HttpWorld.response 404 none) ⟨0, 0⟩).result) := by decide

/-- C4 amended: fetch_by_mmsi returns None (the same absent value as for
a 404 not-found) for transport failures, unexpected status codes and
parse failures alike, and never raises; failures are visible only in the
source-internal consecutive_errors counter, never in the return value. -/
theorem fetch_by_mmsi_failure_returns_none (min_delay now : Int)
    (st : SourceState) (w : HttpWorld)
    (hrl : min_delay ≤ now - st.last_request_time)
    (hw : failure_world w = true) :
    (fetch_by_mmsi min_delay now w st).result = none ∧
    (fetch_by_mmsi min_delay now w st).result =
      (fetch_by_mmsi min_delay now (HttpWorld.response 404 none) st).result := by
  have hpass : ¬ (now - st.last_request_time < min_delay) := not_lt.2 hrl
  have h404 : (fetch_by_mmsi min_delay now (HttpWorld.response 404 none) st).result = none := by
    simp [fetch_by_mmsi, respect_rate_limit, hpass]
  cases w with
  | transportError =>
    refine ⟨?_, ?_⟩ <;> simp [fetch_by_mmsi, respect_rate_limit, hpass, h404]
  | response code parsed =>
    simp only [failure_world, Bool.and_eq_true, Bool.or_eq_true,
      decide_eq_true_eq, Bool.not_eq_true'] at hw
    obtain ⟨hne, hfail⟩ := hw
    have hmain : (fetch_by_mmsi min_delay now (HttpWorld.response code parsed) st).result = none := by
      by_cases h46 : code = 406 ∨ code = 429
      · simp [fetch_by_mmsi, respect_rate_limit, hpass, hne, h46]
      · rcases hfail with hok | hparse
        · simp [fetch_by_mmsi, respect_rate_limit, hpass, hne, h46, hok]
        · have hpnone : parsed = none := Option.isNone_iff_eq_none.1 hparse
          subst hpnone
          by_cases hok : http_ok code = true
          · simp [fetch_by_mmsi, respect_rate_limit, hpass, hne, h46, hok]
          · simp only [Bool.not_eq_true] at hok
            simp [fetch_by_mmsi, respect_rate_limit, hpass, hne, h46, hok]
    exact ⟨hmain, by rw [hmain, h404]⟩

/-- C4 amended witness: a 500 response on a source whose last request was
long ago returns None. -/
theorem fetch_by_mmsi_failure_returns_none_witness :
    (fetch_by_mmsi 60000 100000 (HttpWorld.response 500 none) ⟨0, 0⟩).result = none :=
  (fetch_by_mmsi_failure_returns_none 60000 100000 ⟨0, 0⟩
    (HttpWorld.response 500 none) (by decide) (by decide)).1

/-- C5: evaluating `add_many_to_queue` at a one-element key list on an
empty queue.  Because queue.py line 119 passes `(mmsi, priority,
db_session)` to `add_to_queue(self, mmsi, db_session, priority)`, the int
priority arrives as the session: `db_session.execute` raises
AttributeError, the handler's `db_session.rollback()` (line 89) raises
AttributeError again uncaught, and the batch aborts with nothing
inserted instead of inserting the key and returning 1. -/
theorem add_many_to_queue_raises_eval :
    add_many_to_queue ["123456789"] PyVal.session (PyVal.intVal 0) 1 0 [] =
      Except.error "AttributeError: int object has no attribute rollback" := by rfl

/-- C6: evaluating the rate limiter at two requests 1 second apart with
rate_limit = 1/min (min_delay = 60000 ms, the VesselFinder default,
config.py line 42).  The claim says the second call suspends for the
remaining 59 s then stamps the clock; instead the sleep branch raises
NameError (base.py references asyncio at line 81 without importing it),
fetch_by_mmsi catches it and returns None with no HTTP request made, and
last_request_time is never stamped. -/
theorem respect_rate_limit_name_error_eval :
    respect_rate_limit ((60 * 1000) / 1) 2000 ⟨1000, 0⟩ =
      Except.error "NameError: name asyncio is not defined" ∧
    (fetch_by_mmsi ((60 * 1000) / 1) 2000 (HttpWorld.response 200 (some "EVER GIVEN")) ⟨1000, 0⟩).requestMade = false ∧
    (fetch_by_mmsi ((60 * 1000) / 1) 2000 (HttpWorld.response 200 (some "EVER GIVEN")) ⟨1000, 0⟩).result = none ∧
    (fetch_by_mmsi ((60 * 1000) / 1) 2000 (HttpWorld.response 200 (some "EVER GIVEN")) ⟨1000, 0⟩).st.last_request_time = 1000 := by
  refine ⟨rfl, by decide, by decide, by decide⟩

lemma enrich_loop_all_empty (mmsi : String) (sources : List (String × SourceReply))
    (fetches avails : Nat) (hnone : ∀ s ∈ sources, s.2 ≠ SourceReply.data) :
    (enrich_loop mmsi sources fetches avails).resp =
      { success := false, mmsi := mmsi, source := "none",
        error := some "No data found from any source" } := by
  induction sources generalizing fetches avails with
  | nil => rfl
  | cons hd tl ih =>
    obtain ⟨name, reply⟩ := hd
    have htl : ∀ s ∈ tl, s.2 ≠ SourceReply.data :=
      fun s hs => hnone s (List.mem_cons_of_mem _ hs)
    cases reply with
    | unavailable => exact ih _ _ htl
    | absent => exact ih _ _ htl
    | raised => exact ih _ _ htl
    | data =>
      exact absurd rfl (hnone (name, SourceReply.data) (List.mem_cons_self _ _))

/-- C9: when the vessel is absent from the database, enrich_vessel
returns a failure tagged source database having touched no external
source (no availability probe, no fetch); and when the vessel exists but
every configured source yields no usable data — unavailable, not-found
(None), or a raised fetch — it returns a failure tagged source none, not
source error. -/
theorem enrich_vessel_source_tags (mmsi : String)
    (sources : List (String × SourceReply))
    (hnone : ∀ s ∈ sources, s.2 ≠ SourceReply.data) :
    ((enrich_vessel mmsi false sources).resp.success = false ∧
     (enrich_vessel mmsi false sources).resp.source = "database" ∧
     (enrich_vessel mmsi false sources).fetch_calls = 0 ∧
     (enrich_vessel mmsi false sources).avail_checks = 0) ∧
    ((enrich_vessel mmsi true sources).resp.success = false ∧
     (enrich_vessel mmsi true sources).resp.source = "none" ∧
     (enrich_vessel mmsi true sources).resp.source ≠ "error") := by
  have h := enrich_loop_all_empty mmsi sources 0 0 hnone
  refine ⟨⟨rfl, rfl, rfl, rfl⟩, ?_, ?_, ?_⟩
  · show (enrich_loop mmsi sources 0 0).resp.success = false
    rw [h]
  · show (enrich_loop mmsi sources 0 0).resp.source = "none"
    rw [h]
  · show (enrich_loop mmsi sources 0 0).resp.source ≠ "error"
    rw [h]
    show ("none" : String) ≠ "error"
    decide

/-- C9 witness: a single source that reports not-found (None) yields a
failure tagged source none; a vessel missing from the database yields a
failure tagged source database. -/
theorem enrich_vessel_source_tags_witness :
    (enrich_vessel "123456789" true [("VesselFinder", SourceReply.absent)]).resp.source = "none" ∧
    (enrich_vessel "123456789" false [("VesselFinder", SourceReply.absent)]).resp.source = "database" :=
  ⟨(enrich_vessel_source_tags "123456789" [("VesselFinder", SourceReply.absent)]
      (by decide)).2.2.1,
   (enrich_vessel_source_tags "123456789" [("VesselFinder", SourceReply.absent)]
      (by decide)).1.2.1⟩
